import Mathlib

/-!
Verification of the SyncroRMM contact-export script (src/syncro.py).

The script is a thin client over a paginated HTTP API.  We embed it
shallowly:

* JSON values are `JVal`; Python dicts are association lists in insertion
  order, with `dictSet` modelling item assignment (update in place keeps
  the position, a new key is appended at the end).
* The HTTP layer is a pure `Server : Req → Response` function; a request
  carries the URL and the JSON payload the script sends (the script sends
  its query parameters as a JSON body, so `Req.params` is that payload).
* Generators are embedded by their pull traces: `get_all server url ps n`
  is the observable behaviour of the generator `Syncro._get_all` when the
  caller pulls at most `n` items — the requests it issues (one per pull
  that fetches), the page payloads it yields, the `APIError` it raises, if
  any, and whether it was exhausted within those pulls.  This makes the
  laziness of the source generators (no fetch until requested) explicit.
* `mainRun` is the `__main__` driver: header peek, then the CSV pass over
  a second, independent generator; its result records the exit code, the
  rows written to the output file (`none` when the file was never opened),
  and the exception caught at top level, if any.
-/

/-- A JSON value as used by the script: `null` (Python `None`),
strings and integers. -/
inductive JVal where
  | null : JVal
  | str : String → JVal
  | num : Int → JVal
deriving Repr, DecidableEq

/-- A Python dict with `JVal` values: association list in insertion order. -/
abbrev Params := List (String × JVal)

/-- A contact/customer record: mapping of field name to value. -/
abbrev Rec := List (String × JVal)

/-- Python dict item assignment `d[k] = v`: updating an existing key keeps
its position, a new key is appended at the end. -/
def dictSet : Params → String → JVal → Params
  | [], k, v => [(k, v)]
  | (k', v') :: rest, k, v =>
      if k' = k then (k, v) :: rest else (k', v') :: dictSet rest k v

/-- Python dict lookup `d.get(k)`: first binding of `k`, if any. -/
def dictGet : Params → String → Option JVal
  | [], _ => none
  | (k', v') :: rest, k => if k' = k then some v' else dictGet rest k

/-- Python `list(d.keys())`: the keys in insertion order. -/
def dictKeys (d : Params) : List String := d.map Prod.fst

/-- Pagination metadata of a decoded page payload; both markers are
optional (`data.get("meta", \x7b\x7d).get(..., -1)` defaults them). -/
structure Meta where
  page : Option Int := none
  total_pages : Option Int := none
deriving Repr, DecidableEq

/-- A decoded API response body: optional `meta`, optional named
collections `contacts` and `customers`. -/
structure PageData where
  meta : Option Meta := none
  contacts : Option (List Rec) := none
  customers : Option (List Rec) := none
deriving Repr, DecidableEq

/-- An HTTP response: status code, status text, decoded JSON body. -/
structure Response where
  status_code : Nat
  reason : String
  body : PageData
deriving Repr, DecidableEq

/-- An outbound request: the URL and the JSON payload sent with it. -/
structure Req where
  url : String
  params : Params
deriving Repr, DecidableEq

/-- The remote server, as the script observes it: a function from a
request to the response. -/
abbrev Server := Req → Response

/-- `data.get("meta", \x7b\x7d).get("page", -1)`. -/
def metaPage (d : PageData) : Int := ((d.meta.getD {}).page).getD (-1)

/-- `data.get("meta", \x7b\x7d).get("total_pages", -1)`. -/
def metaTotalPages (d : PageData) : Int := ((d.meta.getD {}).total_pages).getD (-1)

/-- `class APIError(Exception)`: the constructor formats the response's
status code and reason into the message; we model the error as carrying
exactly those two fields. -/
structure APIError where
  status_code : Nat
  reason : String
deriving Repr, DecidableEq

/-- `Syncro._get_page`: set `parameters["page"] = page` (a `None`
argument becomes a fresh empty dict), issue the GET, and on status 200
return the body together with `meta.page` and `meta.total_pages`
(defaulting to -1); on any other status raise `APIError`.  The result
also exposes the request that was sent and the mutated dict (which is
exactly the sent payload). -/
def get_page (server : Server) (url : String) (parameters : Option Params)
    (page : Int) : Req × Params × Except APIError (PageData × Int × Int) :=
  let ps := dictSet (parameters.getD []) "page" (.num page)
  let req : Req := ⟨url, ps⟩
  let resp := server req
  if resp.status_code = 200 then
    (req, ps, .ok (resp.body, metaPage resp.body, metaTotalPages resp.body))
  else
    (req, ps, .error ⟨resp.status_code, resp.reason⟩)

/-- The observable behaviour of a generator over a bounded number of
pulls. -/
structure GenTrace where
  /-- requests issued, in order -/
  reqs : List Req
  /-- page payloads yielded, in order -/
  pages : List PageData
  /-- the `APIError` raised, if any (always after all yielded pages) -/
  err : Option APIError
  /-- whether the generator finished (raised `StopIteration`) within the
  pulls -/
  exhausted : Bool
deriving Repr, DecidableEq

/-- The `while page < total_pages` loop of `Syncro._get_all`, resumed in
the state reached after a yield: the shared parameter dict, the last
reported `page` and `total_pages`.  The `Nat` argument bounds the number
of further pulls; each pull that passes the loop condition fetches page
`page + 1` and yields its payload. -/
def genSteps (server : Server) (url : String) (parameters : Option Params)
    (page totalPages : Int) : Nat → GenTrace
  | 0 => ⟨[], [], none, false⟩
  | n + 1 =>
    if page < totalPages then
      match get_page server url parameters (page + 1) with
      | (req, _, .error e) => ⟨[req], [], some e, false⟩
      | (req, ps, .ok (d, p, t)) =>
          let rest := genSteps server url (parameters.map fun _ => ps) p t n
          ⟨req :: rest.reqs, d :: rest.pages, rest.err, rest.exhausted⟩
    else ⟨[], [], none, true⟩

/-- `Syncro._get_all`: fetch page 1 and yield it, then loop while
`page < total_pages`, fetching `page + 1` each time.  `n` bounds the
number of pulls the caller performs; no fetch happens for pulls that are
never requested (the generator is lazy). -/
def get_all (server : Server) (url : String) (parameters : Option Params) :
    Nat → GenTrace
  | 0 => ⟨[], [], none, false⟩
  | n + 1 =>
    match get_page server url parameters 1 with
    | (req, _, .error e) => ⟨[req], [], some e, false⟩
    | (req, ps, .ok (d, p, t)) =>
        let rest := genSteps server url (parameters.map fun _ => ps) p t n
        ⟨req :: rest.reqs, d :: rest.pages, rest.err, rest.exhausted⟩

/-- The value placed under `customer_id` by `dict(customer_id=customer_id)`. -/
def jopt : Option String → JVal
  | none => .null
  | some s => .str s

/-- `Syncro.all_contacts`: build `params = dict(customer_id=customer_id)`
once, run `_get_all` on `/contacts` with it, and map each yielded page to
`page.get("contacts", [])`.  Returns the underlying trace together with
the contact lists yielded. -/
def all_contacts (server : Server) (base_url : String)
    (customer_id : Option String) (n : Nat) : GenTrace × List (List Rec) :=
  let params : Params := [("customer_id", jopt customer_id)]
  let t := get_all server (base_url ++ "/contacts") (some params) n
  (t, t.pages.map fun d => d.contacts.getD [])

/-- `Syncro.all_customers`: `_get_all` on `/customers` with no
parameters, mapping each page to `page.get("customers", [])`. -/
def all_customers (server : Server) (base_url : String) (n : Nat) :
    GenTrace × List (List Rec) :=
  let t := get_all server (base_url ++ "/customers") none n
  (t, t.pages.map fun d => d.customers.getD [])

/-- A Python exception as distinguished by the top-level handlers:
an `APIError`, or one of the generic exceptions the script can raise. -/
inductive PyError where
  | api : APIError → PyError
  | indexError : PyError
  | stopIteration : PyError
  | valueError : PyError
deriving Repr, DecidableEq

/-- `Syncro.get_headers` applied to an `all_contacts` generator:
`page = next(generator)` (a single pull, hence a single fetch), then
`data = page[0]` (an `IndexError` on an empty page) and
`list(data.keys())`. -/
def get_headers (server : Server) (base_url : String)
    (customer_id : Option String) : Except PyError (List String) :=
  let (t, pages) := all_contacts server base_url customer_id 1
  match t.err with
  | some e => .error (.api e)
  | none =>
    match pages with
    | [] => .error .stopIteration
    | page :: _ =>
      match page with
      | [] => .error .indexError
      | r :: _ => .ok (dictKeys r)

/-- The allow-list of contact fields in `Syncro.create_contact`. -/
def contactFields : List String :=
  ["customer_id", "name", "address1", "address2", "city", "state", "zip",
   "email", "phone", "mobile", "notes"]

/-- `Syncro.create_contact`: filter the keyword arguments to the
allow-list, POST them to `/contacts`, return `True` on status 200 and
raise `APIError` otherwise.  The result exposes the request sent. -/
def create_contact (server : Server) (base_url : String)
    (kwargs : List (String × JVal)) : Req × Except APIError Bool :=
  let url := base_url ++ "/contacts"
  let data := kwargs.filter fun kv => contactFields.contains kv.1
  let req : Req := ⟨url, data⟩
  let resp := server req
  if resp.status_code = 200 then (req, .ok true)
  else (req, .error ⟨resp.status_code, resp.reason⟩)

/-- How the `csv` module stringifies a cell value: `None` becomes the
empty string, other values go through `str`. -/
def jstr : JVal → String
  | .null => ""
  | .str s => s
  | .num n => toString n

/-- The row `csv.DictWriter` emits for a record: the record's values in
`fieldnames` order, the empty string for a missing field (`restval`). -/
def csvRow (fieldnames : List String) (r : Rec) : List String :=
  fieldnames.map fun f => jstr ((dictGet r f).getD .null)

/-- One `DictWriter.writerow`: a `ValueError` when the record has a key
outside `fieldnames` (the default `extrasaction="raise"`), otherwise the
row of values in `fieldnames` order. -/
def dictWriterRow (fieldnames : List String) (r : Rec) :
    Except PyError (List String) :=
  if (dictKeys r).all (fun k => fieldnames.contains k) then
    .ok (csvRow fieldnames r)
  else .error .valueError

/-- `DictWriter.writerows` over one page: rows are written one at a time,
so the rows before a failing record stay written. -/
def writeRecords (fieldnames : List String) :
    List Rec → List (List String) × Option PyError
  | [] => ([], none)
  | r :: rs =>
    match dictWriterRow fieldnames r with
    | .error e => ([], some e)
    | .ok row =>
      match writeRecords fieldnames rs with
      | (rows, e) => (row :: rows, e)

/-- The export loop's writes over the yielded pages, in order; a failing
record stops the writing (later pages are not written). -/
def writePages (fieldnames : List String) :
    List (List Rec) → List (List String) × Option PyError
  | [] => ([], none)
  | p :: ps =>
    match writeRecords fieldnames p with
    | (rows, some e) => (rows, some e)
    | (rows, none) =>
      match writePages fieldnames ps with
      | (rows2, e) => (rows ++ rows2, e)

/-- The command-line arguments after parsing. -/
structure Args where
  api_key : String
  subdomain : String
  outfile : String
  customer_id : Option String
deriving Repr, DecidableEq

/-- The base URL built in `__main__`. -/
def baseUrl (args : Args) : String :=
  "https://" ++ args.subdomain ++ ".syncromsp.com/api/v1"

/-- The outcome of a run of `__main__`: the process exit code, the rows
written to the output file (`none` when the file was never opened), and
the exception caught at top level, if any. -/
structure MainResult where
  exitCode : Nat
  file : Option (List (List String))
  err : Option PyError
deriving Repr, DecidableEq

/-- The `__main__` driver.  Header discovery via
`api.get_headers(api.all_contacts())` (no customer filter) runs before
the output file is opened; on success the file is opened, the header row
written, and rows are appended for every record of every page of a
second, independent `all_contacts(customer_id=args.customer_id)` pass.
`fuel` bounds the pulls of that pass; the result is `none` when the pass
did not finish within `fuel` pulls (it neither raised nor was
exhausted).  Any `APIError` or other exception is caught at top level and
turns into exit code 1. -/
def mainRun (server : Server) (args : Args) (fuel : Nat) :
    Option MainResult :=
  match get_headers server (baseUrl args) none with
  | .error e => some ⟨1, none, some e⟩
  | .ok fieldnames =>
    let (t, pages) := all_contacts server (baseUrl args) args.customer_id fuel
    match writePages fieldnames pages with
    | (rows, some we) => some ⟨1, some (fieldnames :: rows), some we⟩
    | (rows, none) =>
      match t.err with
      | some e => some ⟨1, some (fieldnames :: rows), some (.api e)⟩
      | none =>
        if t.exhausted then some ⟨0, some (fieldnames :: rows), none⟩
        else none

/-- The requests a run of `__main__` issues, in order: the single header
peek first, then (when the peek succeeded) the requests of the export
pass. -/
def mainReqs (server : Server) (args : Args) (fuel : Nat) : List Req :=
  let peek := (all_contacts server (baseUrl args) none 1).1.reqs
  match get_headers server (baseUrl args) none with
  | .error _ => peek
  | .ok _ => peek ++ (all_contacts server (baseUrl args) args.customer_id fuel).1.reqs

/-- The first request `__main__` sends: the header peek's fetch of
`/contacts` page 1 with `customer_id = None`. -/
def peekReq (args : Args) : Req :=
  ⟨baseUrl args ++ "/contacts",
   dictSet [("customer_id", JVal.null)] "page" (.num 1)⟩

/-- The page number a request asks for, as the mock servers read it. -/
def pageOf (q : Req) : Int :=
  match dictGet q.params "page" with
  | some (JVal.num n) => n
  | _ => 0

/-- A well-behaved mock server: always 200, echoes the requested page in
`meta.page`, reports `M` total pages, serves the records `cs` as the
`contacts` collection of every page. -/
def mockS (M : Nat) (cs : List Rec) : Server := fun q =>
  { status_code := 200, reason := "OK",
    body := { meta := some { page := some (pageOf q),
                             total_pages := some (M : Int) },
              contacts := some cs } }

/-- A mock server that fails every request with the given status. -/
def errS (c : Nat) (r : String) : Server := fun _ =>
  { status_code := c, reason := r, body := {} }

/-- A mock server answering 200 with an empty contact list on every
page. -/
def emptyS : Server := fun q =>
  { status_code := 200, reason := "OK",
    body := { meta := some { page := some (pageOf q),
                             total_pages := some 1 },
              contacts := some [] } }

/-- Concrete arguments used by the witnesses. -/
def argsW (cid : Option String) : Args :=
  { api_key := "k", subdomain := "sub", outfile := "out.csv",
    customer_id := cid }

/-- The expected requests of a full pass: `cnt` requests asking for the
consecutive pages `start`, `start + 1`, …, all with the same base
payload. -/
def pageReqs (url : String) (base : Params) : Nat → Nat → List Req
  | _, 0 => []
  | start, cnt + 1 =>
      (⟨url, dictSet base "page" (.num (start : Int))⟩ : Req) ::
        pageReqs url base (start + 1) cnt

/-- The first request any `_get_all` pass sends: page 1 over the given
base payload. -/
def firstPageReq (url : String) (op : Option Params) : Req :=
  ⟨url, dictSet (op.getD []) "page" (.num 1)⟩

/-- The first request an `all_contacts` pass sends: `/contacts` page 1
with the `customer_id` key always present. -/
def contactsPageOneReq (b : String) (cid : Option String) : Req :=
  ⟨b ++ "/contacts", dictSet [("customer_id", jopt cid)] "page" (.num 1)⟩

/-- A mock server that answers 200 with a body carrying no `meta` key at
all (so both pagination markers default to -1). -/
def bareS (cs : List Rec) : Server := fun _ =>
  { status_code := 200, reason := "OK", body := { contacts := some cs } }

/-- Witness contact records. -/
def wr1 : Rec := [("id", .num 1), ("name", .str "a"), ("email", .str "a@x")]

/-- Witness contact records. -/
def wr2 : Rec := [("id", .num 2), ("name", .str "b"), ("email", .str "b@x")]

lemma dictGet_dictSet (l : Params) (k : String) (v : JVal) :
    dictGet (dictSet l k v) k = some v := by
  induction l with
  | nil => simp [dictSet, dictGet]
  | cons kv rest ih =>
    obtain ⟨k', v'⟩ := kv
    by_cases h : k' = k
    · simp [dictSet, dictGet, h]
    · simp [dictSet, dictGet, h, ih]

lemma dictGet_dictSet_ne (l : Params) (k k' : String) (v : JVal)
    (h : k' ≠ k) : dictGet (dictSet l k v) k' = dictGet l k' := by
  have h2 : ¬ k = k' := fun hh => h hh.symm
  induction l with
  | nil => simp [dictSet, dictGet, h2]
  | cons kv rest ih =>
    obtain ⟨k₀, v₀⟩ := kv
    by_cases h0 : k₀ = k
    · subst h0
      simp [dictSet, dictGet, h2]
    · by_cases h1 : k₀ = k'
      · simp [dictSet, dictGet, h0, h1, h]
      · simp [dictSet, dictGet, h0, h1, ih]

lemma dictSet_dictSet (l : Params) (k : String) (v w : JVal) :
    dictSet (dictSet l k v) k w = dictSet l k w := by
  induction l with
  | nil => simp [dictSet]
  | cons kv rest ih =>
    obtain ⟨k', v'⟩ := kv
    by_cases h : k' = k
    · simp [dictSet, h]
    · simp [dictSet, h, ih]

lemma pageReqs_zero (url : String) (base : Params) (s : Nat) :
    pageReqs url base s 0 = [] := rfl

lemma pageReqs_succ (url : String) (base : Params) (s c : Nat) :
    pageReqs url base s (c + 1) =
      (⟨url, dictSet base "page" (.num (s : Int))⟩ : Req) ::
        pageReqs url base (s + 1) c := rfl

lemma pageReqs_length (url : String) (base : Params) (s c : Nat) :
    (pageReqs url base s c).length = c := by
  induction c generalizing s with
  | zero => rfl
  | succ c ih => simp [pageReqs, ih]

/-- The request at position `i` of `pageReqs` asks for page `s + i`. -/
lemma pageReqs_getElem (url : String) (base : Params) (s c i : Nat)
    (hi : i < c) (hlen : i < (pageReqs url base s c).length) :
    (pageReqs url base s c)[i] =
      (⟨url, dictSet base "page" (.num ((s + i : Nat) : Int))⟩ : Req) := by
  induction c generalizing s i with
  | zero => omega
  | succ c ih =>
    cases i with
    | zero => simp [pageReqs]
    | succ j =>
      have := ih (s + 1) j (by omega) (by simp [pageReqs_length]; omega)
      simp only [pageReqs, List.getElem_cons_succ]
      rw [this]
      congr 3
      omega

/-- Unfolding of one loop pull whose fetch succeeds. -/
lemma genSteps_succ_ok (S : Server) (url : String) (op : Option Params)
    (page tp : Int) (n : Nat) (req : Req) (ps : Params) (d : PageData)
    (p t : Int)
    (h : get_page S url op (page + 1) = (req, ps, .ok (d, p, t)))
    (hlt : page < tp) :
    genSteps S url op page tp (n + 1) =
      ⟨req :: (genSteps S url (op.map fun _ => ps) p t n).reqs,
       d :: (genSteps S url (op.map fun _ => ps) p t n).pages,
       (genSteps S url (op.map fun _ => ps) p t n).err,
       (genSteps S url (op.map fun _ => ps) p t n).exhausted⟩ := by
  simp only [genSteps]
  rw [if_pos hlt, h]

/-- Unfolding of one loop pull whose fetch fails. -/
lemma genSteps_succ_err (S : Server) (url : String) (op : Option Params)
    (page tp : Int) (n : Nat) (req : Req) (ps : Params) (e : APIError)
    (h : get_page S url op (page + 1) = (req, ps, .error e))
    (hlt : page < tp) :
    genSteps S url op page tp (n + 1) = ⟨[req], [], some e, false⟩ := by
  simp only [genSteps]
  rw [if_pos hlt, h]

/-- Unfolding of the first pull of `_get_all` when the fetch succeeds. -/
lemma get_all_succ_ok (S : Server) (url : String) (op : Option Params)
    (n : Nat) (req : Req) (ps : Params) (d : PageData) (p t : Int)
    (h : get_page S url op 1 = (req, ps, .ok (d, p, t))) :
    get_all S url op (n + 1) =
      ⟨req :: (genSteps S url (op.map fun _ => ps) p t n).reqs,
       d :: (genSteps S url (op.map fun _ => ps) p t n).pages,
       (genSteps S url (op.map fun _ => ps) p t n).err,
       (genSteps S url (op.map fun _ => ps) p t n).exhausted⟩ := by
  simp only [get_all]
  rw [h]

/-- Unfolding of the first pull of `_get_all` when the fetch fails. -/
lemma get_all_succ_err (S : Server) (url : String) (op : Option Params)
    (n : Nat) (req : Req) (ps : Params) (e : APIError)
    (h : get_page S url op 1 = (req, ps, .error e)) :
    get_all S url op (n + 1) = ⟨[req], [], some e, false⟩ := by
  simp only [get_all]
  rw [h]

/-- When the loop condition fails, further pulls fetch nothing and yield
nothing. -/
lemma genSteps_stop (S : Server) (url : String) (op : Option Params)
    (page tp : Int) (n : Nat) (h : ¬ page < tp) :
    (genSteps S url op page tp n).reqs = [] ∧
    (genSteps S url op page tp n).pages = [] ∧
    (genSteps S url op page tp n).err = none := by
  cases n with
  | zero => exact ⟨rfl, rfl, rfl⟩
  | succ m => simp [genSteps, h]

/-- Over a server that answers 200 everywhere, echoes the requested page
in `meta.page` and reports `M` total pages, the loop resumed at page `p`
fetches and yields exactly pages `p + 1`, …, `M`, in order, provided the
caller pulls often enough. -/
lemma genSteps_complete (S : Server) (url : String) (base : Params) (M : Nat)
    (h200 : ∀ q, (S q).status_code = 200)
    (hpage : ∀ q p, dictGet q.params "page" = some (.num p) →
      metaPage (S q).body = p)
    (htot : ∀ q, metaTotalPages (S q).body = (M : Int)) :
    ∀ (n p : Nat) (op : Option Params),
      (∀ w, dictSet (op.getD []) "page" w = dictSet base "page" w) →
      M ≤ p + n →
      (genSteps S url op (p : Int) (M : Int) n).reqs =
          pageReqs url base (p + 1) (M - p) ∧
      (genSteps S url op (p : Int) (M : Int) n).pages =
          (pageReqs url base (p + 1) (M - p)).map (fun q => (S q).body) ∧
      (genSteps S url op (p : Int) (M : Int) n).err = none := by
  intro n
  induction n with
  | zero =>
    intro p op hop hM
    have hp : M - p = 0 := by omega
    simp [genSteps, hp, pageReqs_zero]
  | succ m ih =>
    intro p op hop hM
    by_cases hlt : p < M
    · have hlt' : (p : Int) < (M : Int) := by exact_mod_cast hlt
      have hcast : (p : Int) + 1 = ((p + 1 : Nat) : Int) := by push_cast; ring
      have hsent : dictSet (op.getD []) "page" (.num ((p : Int) + 1)) =
          dictSet base "page" (.num ((p + 1 : Nat) : Int)) := by
        rw [hop, hcast]
      have hmp : metaPage
          (S ⟨url, dictSet base "page" (.num ((p + 1 : Nat) : Int))⟩).body =
          ((p + 1 : Nat) : Int) :=
        hpage _ _ (dictGet_dictSet _ _ _)
      have hgp : get_page S url op ((p : Int) + 1) =
          (⟨url, dictSet base "page" (.num ((p + 1 : Nat) : Int))⟩,
           dictSet base "page" (.num ((p + 1 : Nat) : Int)),
           .ok ((S ⟨url, dictSet base "page"
                  (.num ((p + 1 : Nat) : Int))⟩).body,
                ((p + 1 : Nat) : Int), (M : Int))) := by
        simp only [get_page]
        rw [hsent, if_pos (h200 _), hmp, htot]
      have hinv : ∀ w, dictSet ((op.map fun _ =>
          dictSet base "page" (.num ((p + 1 : Nat) : Int))).getD [])
          "page" w = dictSet base "page" w := by
        intro w
        cases op with
        | none => simpa using hop w
        | some l => simp [dictSet_dictSet]
      have hih := ih (p + 1) (op.map fun _ =>
        dictSet base "page" (.num ((p + 1 : Nat) : Int))) hinv (by omega)
      have hcnt : M - p = (M - (p + 1)) + 1 := by omega
      rw [genSteps_succ_ok S url op (p : Int) (M : Int) m _ _ _ _ _
        hgp hlt', hcnt, pageReqs_succ]
      push_cast at hih
      exact ⟨by simp [hih.1], by simp [hih.2.1], by simp [hih.2.2]⟩
    · have hlt' : ¬ (p : Int) < (M : Int) := by exact_mod_cast hlt
      have hp : M - p = 0 := by omega
      have hstop := genSteps_stop S url op (p : Int) (M : Int) (m + 1) hlt'
      simp [hstop.1, hstop.2.1, hstop.2.2, hp, pageReqs_zero]

/-- A full `_get_all` pass over such a server issues requests for pages
1, …, `M` in order and yields their payloads, with no error. -/
lemma get_all_complete (S : Server) (url : String) (op : Option Params)
    (M n : Nat)
    (h200 : ∀ q, (S q).status_code = 200)
    (hpage : ∀ q p, dictGet q.params "page" = some (.num p) →
      metaPage (S q).body = p)
    (htot : ∀ q, metaTotalPages (S q).body = (M : Int))
    (hM : 1 ≤ M) (hn : M ≤ n) :
    (get_all S url op n).reqs = pageReqs url (op.getD []) 1 M ∧
    (get_all S url op n).pages =
      (pageReqs url (op.getD []) 1 M).map (fun q => (S q).body) ∧
    (get_all S url op n).err = none := by
  obtain ⟨m, rfl⟩ : ∃ m, n = m + 1 := ⟨n - 1, by omega⟩
  have hone : ((1 : Nat) : Int) = (1 : Int) := by norm_num
  have hmp : metaPage
      (S ⟨url, dictSet (op.getD []) "page" (.num (1 : Int))⟩).body =
      (1 : Int) :=
    hpage _ _ (dictGet_dictSet _ _ _)
  have hgp : get_page S url op (1 : Int) =
      (⟨url, dictSet (op.getD []) "page" (.num (1 : Int))⟩,
       dictSet (op.getD []) "page" (.num (1 : Int)),
       .ok ((S ⟨url, dictSet (op.getD []) "page" (.num (1 : Int))⟩).body,
            (1 : Int), (M : Int))) := by
    simp only [get_page]
    rw [if_pos (h200 _), hmp, htot]
  have hinv : ∀ w, dictSet ((op.map fun _ =>
      dictSet (op.getD []) "page" (.num (1 : Int))).getD [])
      "page" w = dictSet (op.getD []) "page" w := by
    intro w
    cases op with
    | none => simp
    | some l => simp [dictSet_dictSet]
  have hrest := genSteps_complete S url (op.getD []) M h200 hpage htot m 1
    (op.map fun _ => dictSet (op.getD []) "page" (.num (1 : Int)))
    (by simpa [hone] using hinv) (by omega)
  have hcnt : M = (M - 1) + 1 := by omega
  have hpr : pageReqs url (op.getD []) 1 M =
      (⟨url, dictSet (op.getD []) "page" (.num (1 : Int))⟩ : Req) ::
        pageReqs url (op.getD []) (1 + 1) (M - 1) := by
    rw [hcnt, pageReqs_succ]
    norm_num
  rw [get_all_succ_ok S url op m _ _ _ _ _ hgp, hpr]
  norm_num at hrest
  exact ⟨by simp [hrest.1], by simp [hrest.2.1], by simp [hrest.2.2]⟩

/-- Unfolded form of `_get_page` on a successful response. -/
lemma get_page_ok_eq (S : Server) (url : String) (op : Option Params)
    (page : Int)
    (h : (S ⟨url, dictSet (op.getD []) "page" (.num page)⟩).status_code = 200) :
    get_page S url op page =
      (⟨url, dictSet (op.getD []) "page" (.num page)⟩,
       dictSet (op.getD []) "page" (.num page),
       .ok ((S ⟨url, dictSet (op.getD []) "page" (.num page)⟩).body,
            metaPage (S ⟨url, dictSet (op.getD []) "page" (.num page)⟩).body,
            metaTotalPages
              (S ⟨url, dictSet (op.getD []) "page" (.num page)⟩).body)) := by
  simp only [get_page]
  rw [if_pos h]

/-- Unfolded form of `_get_page` on a non-200 response: the `APIError`
carries the response's status code and reason. -/
lemma get_page_err_eq (S : Server) (url : String) (op : Option Params)
    (page : Int)
    (h : ¬ (S ⟨url, dictSet (op.getD []) "page" (.num page)⟩).status_code = 200) :
    get_page S url op page =
      (⟨url, dictSet (op.getD []) "page" (.num page)⟩,
       dictSet (op.getD []) "page" (.num page),
       .error ⟨(S ⟨url, dictSet (op.getD []) "page" (.num page)⟩).status_code,
               (S ⟨url, dictSet (op.getD []) "page" (.num page)⟩).reason⟩) := by
  simp only [get_page]
  rw [if_neg h]

/-- A single pull of `_get_all` issues exactly the page-1 request, and
yields the page on a 200 response, or raises the `APIError` on any other
status. -/
lemma get_all_one (S : Server) (url : String) (op : Option Params) :
    (get_all S url op 1).reqs = [firstPageReq url op] ∧
    ((S (firstPageReq url op)).status_code = 200 →
      (get_all S url op 1).pages = [(S (firstPageReq url op)).body] ∧
      (get_all S url op 1).err = none) ∧
    (¬ (S (firstPageReq url op)).status_code = 200 →
      (get_all S url op 1).pages = [] ∧
      (get_all S url op 1).err =
        some ⟨(S (firstPageReq url op)).status_code,
              (S (firstPageReq url op)).reason⟩) := by
  by_cases h : (S (firstPageReq url op)).status_code = 200
  · have := get_all_succ_ok S url op 0 _ _ _ _ _
      (get_page_ok_eq S url op 1 h)
    rw [show (0 : Nat) + 1 = 1 from rfl] at this
    rw [this]
    exact ⟨rfl, fun _ => ⟨rfl, rfl⟩, fun hn => absurd h hn⟩
  · have := get_all_succ_err S url op 0 _ _ _
      (get_page_err_eq S url op 1 h)
    rw [show (0 : Nat) + 1 = 1 from rfl] at this
    rw [this]
    exact ⟨rfl, fun hy => absurd hy h, fun _ => ⟨rfl, rfl⟩⟩

/-- The degenerate paginator run: when the first response reports
`meta.page ≥ meta.total_pages` (in particular when `total_pages ≤ 1`, or
when both default to -1), every run yields exactly that one page, no
matter how often the caller pulls. -/
lemma get_all_one_page (S : Server) (url : String) (op : Option Params)
    (n : Nat) (hn : 1 ≤ n)
    (h200 : (S (firstPageReq url op)).status_code = 200)
    (hle : metaTotalPages (S (firstPageReq url op)).body ≤
      metaPage (S (firstPageReq url op)).body) :
    (get_all S url op n).reqs = [firstPageReq url op] ∧
    (get_all S url op n).pages = [(S (firstPageReq url op)).body] ∧
    (get_all S url op n).err = none := by
  obtain ⟨m, rfl⟩ : ∃ m, n = m + 1 := ⟨n - 1, by omega⟩
  rw [get_all_succ_ok S url op m _ _ _ _ _ (get_page_ok_eq S url op 1 h200)]
  have hstop := genSteps_stop S url
    (op.map fun _ => dictSet (op.getD []) "page" (.num 1))
    (metaPage (S (firstPageReq url op)).body)
    (metaTotalPages (S (firstPageReq url op)).body) m (not_lt.mpr hle)
  simp only [firstPageReq] at hstop
  exact ⟨by simp [firstPageReq, hstop.1], by simp [firstPageReq, hstop.2.1],
    by simp [firstPageReq, hstop.2.2]⟩

/-- Every request a `_get_all` pass sends, on any server: the URL is the
endpoint's, and the payload is the base dict with only the `page` key
set. -/
lemma get_all_reqs_shape (S : Server) (url : String) :
    ∀ (n : Nat) (op : Option Params) (q : Req),
      q ∈ (get_all S url op n).reqs →
      ∃ p : Int, q = ⟨url, dictSet (op.getD []) "page" (.num p)⟩ := by
  have hgen : ∀ (n : Nat) (base : Params) (page tp : Int) (op : Option Params),
      (∀ w, dictSet (op.getD []) "page" w = dictSet base "page" w) →
      ∀ q ∈ (genSteps S url op page tp n).reqs,
        ∃ p : Int, q = ⟨url, dictSet base "page" (.num p)⟩ := by
    intro n
    induction n with
    | zero => intro base page tp op hop q hq; simp [genSteps] at hq
    | succ m ih =>
      intro base page tp op hop q hq
      by_cases hlt : page < tp
      · by_cases h200 : (S ⟨url, dictSet (op.getD []) "page"
            (.num (page + 1))⟩).status_code = 200
        · rw [genSteps_succ_ok S url op page tp m _ _ _ _ _
            (get_page_ok_eq S url op (page + 1) h200) hlt] at hq
          simp only [List.mem_cons] at hq
          rcases hq with hq | hq
          · exact ⟨page + 1, by rw [hq, hop]⟩
          · refine ih base _ _ _ ?_ q hq
            intro w
            cases op with
            | none => simpa using hop w
            | some l =>
              have h1 := hop w
              simp only [Option.getD_some] at h1
              simp [dictSet_dictSet, h1]
        · rw [genSteps_succ_err S url op page tp m _ _ _
            (get_page_err_eq S url op (page + 1) h200) hlt] at hq
          simp only [List.mem_cons, List.not_mem_nil, or_false] at hq
          exact ⟨page + 1, by rw [hq, hop]⟩
      · rw [(genSteps_stop S url op page tp (m + 1) hlt).1] at hq
        simp at hq
  intro n op q hq
  cases n with
  | zero => simp [get_all] at hq
  | succ m =>
    by_cases h200 : (S ⟨url, dictSet (op.getD []) "page"
        (.num 1)⟩).status_code = 200
    · rw [get_all_succ_ok S url op m _ _ _ _ _
        (get_page_ok_eq S url op 1 h200)] at hq
      simp only [List.mem_cons] at hq
      rcases hq with hq | hq
      · exact ⟨1, hq⟩
      · refine hgen m (op.getD []) _ _ _ ?_ q hq
        intro w
        cases op with
        | none => simp
        | some l => simp [dictSet_dictSet]
    · rw [get_all_succ_err S url op m _ _ _
        (get_page_err_eq S url op 1 h200)] at hq
      simp only [List.mem_cons, List.not_mem_nil, or_false] at hq
      exact ⟨1, hq⟩

lemma dictWriterRow_ok (fn : List String) (r : Rec) (row : List String)
    (h : dictWriterRow fn r = .ok row) : row = csvRow fn r := by
  unfold dictWriterRow at h
  split at h
  · injection h with h1
    exact h1.symm
  · simp at h

/-- When a page's records are all written without error, the written rows
are exactly one `csvRow` per record, in order. -/
lemma writeRecords_ok (fn : List String) (rs : List Rec)
    (rows : List (List String)) (h : writeRecords fn rs = (rows, none)) :
    rows = rs.map (csvRow fn) := by
  induction rs generalizing rows with
  | nil =>
    simp only [writeRecords, Prod.mk.injEq] at h
    exact h.1.symm
  | cons r rs ih =>
    rcases hw : dictWriterRow fn r with e | row2
    · simp only [writeRecords] at h
      rw [hw] at h
      simp at h
    · simp only [writeRecords] at h
      rw [hw] at h
      rcases hrest : writeRecords fn rs with ⟨rows2, e2⟩
      rw [hrest] at h
      simp only [Prod.mk.injEq] at h
      cases e2 with
      | none =>
        rw [← h.1, dictWriterRow_ok fn r row2 hw, ih rows2 hrest]
        simp
      | some e =>
        exact absurd h.2 (by simp)

/-- When the whole export loop writes without error, the file's data rows
are exactly one `csvRow` per record, pages in order, records in page
order. -/
lemma writePages_ok (fn : List String) (ps : List (List Rec))
    (rows : List (List String)) (h : writePages fn ps = (rows, none)) :
    rows = ps.join.map (csvRow fn) := by
  induction ps generalizing rows with
  | nil =>
    simp only [writePages, Prod.mk.injEq] at h
    simp [← h.1]
  | cons p ps ih =>
    rcases hw : writeRecords fn p with ⟨rows1, e1⟩
    cases e1 with
    | some e =>
      simp only [writePages] at h
      rw [hw] at h
      simp at h
    | none =>
      simp only [writePages] at h
      rw [hw] at h
      rcases hrest : writePages fn ps with ⟨rows2, e2⟩
      rw [hrest] at h
      simp only [Prod.mk.injEq] at h
      cases e2 with
      | some e => exact absurd h.2 (by simp)
      | none =>
        rw [← h.1, writeRecords_ok fn p rows1 hw, ih rows2 hrest]
        simp

lemma peekReq_eq (args : Args) :
    peekReq args = contactsPageOneReq (baseUrl args) none := rfl

/-- `get_headers` over a failing first fetch propagates the `APIError`. -/
lemma get_headers_err_api (S : Server) (b : String) (cid : Option String)
    (h : ¬ (S (contactsPageOneReq b cid)).status_code = 200) :
    get_headers S b cid = .error (.api
      ⟨(S (contactsPageOneReq b cid)).status_code,
       (S (contactsPageOneReq b cid)).reason⟩) := by
  have hfp : firstPageReq (b ++ "/contacts")
      (some [("customer_id", jopt cid)]) = contactsPageOneReq b cid := rfl
  have hga := (get_all_one S (b ++ "/contacts")
    (some [("customer_id", jopt cid)])).2.2 (by rw [hfp]; exact h)
  rw [hfp] at hga
  simp only [get_headers, all_contacts]
  rw [hga.2]

/-- `get_headers` over a 200 first page with no contact records fails
with an `IndexError` (from `page[0]`). -/
lemma get_headers_index (S : Server) (b : String) (cid : Option String)
    (h200 : (S (contactsPageOneReq b cid)).status_code = 200)
    (hc : (S (contactsPageOneReq b cid)).body.contacts.getD [] = []) :
    get_headers S b cid = .error .indexError := by
  have hfp : firstPageReq (b ++ "/contacts")
      (some [("customer_id", jopt cid)]) = contactsPageOneReq b cid := rfl
  have hga := (get_all_one S (b ++ "/contacts")
    (some [("customer_id", jopt cid)])).2.1 (by rw [hfp]; exact h200)
  rw [hfp] at hga
  simp only [get_headers, all_contacts]
  rw [hga.2, hga.1]
  simp [hc]

/-- `get_headers` over a 200 first page whose first record is `r` returns
the keys of `r`, in order. -/
lemma get_headers_ok (S : Server) (b : String) (cid : Option String)
    (r : Rec) (rest : List Rec)
    (h200 : (S (contactsPageOneReq b cid)).status_code = 200)
    (hc : (S (contactsPageOneReq b cid)).body.contacts.getD [] = r :: rest) :
    get_headers S b cid = .ok (dictKeys r) := by
  have hfp : firstPageReq (b ++ "/contacts")
      (some [("customer_id", jopt cid)]) = contactsPageOneReq b cid := rfl
  have hga := (get_all_one S (b ++ "/contacts")
    (some [("customer_id", jopt cid)])).2.1 (by rw [hfp]; exact h200)
  rw [hfp] at hga
  simp only [get_headers, all_contacts]
  rw [hga.2, hga.1]
  simp [hc]

/-- Inversion: a successful `get_headers` means the peeked page had a
first record, and the result is that record's key list. -/
lemma get_headers_ok_inv (S : Server) (b : String) (cid : Option String)
    (fns : List String) (h : get_headers S b cid = .ok fns) :
    ∃ (r1 : Rec) (rest : List Rec) (tail : List (List Rec)),
      (all_contacts S b cid 1).2 = (r1 :: rest) :: tail ∧
      fns = dictKeys r1 := by
  simp only [get_headers, all_contacts] at h
  rcases herr : (get_all S (b ++ "/contacts")
      (some [("customer_id", jopt cid)]) 1).err with _ | e
  · rw [herr] at h
    rcases hp : (get_all S (b ++ "/contacts")
        (some [("customer_id", jopt cid)]) 1).pages with _ | ⟨d, ds⟩
    · rw [hp] at h
      simp at h
    · rw [hp] at h
      rcases hd : d.contacts.getD [] with _ | ⟨r, rs⟩
      · simp [hd] at h
      · simp only [List.map_cons, hd] at h
        refine ⟨r, rs, ds.map (fun d => d.contacts.getD []), ?_, ?_⟩
        · simp [all_contacts, hp, hd]
        · injection h with h1
          exact h1.symm
  · rw [herr] at h
    simp at h

lemma get_all_head (S : Server) (url : String) (op : Option Params)
    (m : Nat) :
    ∃ tl, (get_all S url op (m + 1)).reqs = firstPageReq url op :: tl := by
  by_cases h : (S (firstPageReq url op)).status_code = 200
  · rw [get_all_succ_ok S url op m _ _ _ _ _
      (get_page_ok_eq S url op 1 (by exact h))]
    exact ⟨_, rfl⟩
  · rw [get_all_succ_err S url op m _ _ _
      (get_page_err_eq S url op 1 (by exact h))]
    exact ⟨[], rfl⟩

/-- C1: over a server that answers 200 everywhere, echoes the requested
page number in meta.page and reports N total pages, a full run of the
paginator `_get_all` requests pages 1, 2, …, N in increasing order and
yields exactly their N payloads, with no error; and in the degenerate
cases it yields exactly one page no matter how often it is pulled: when
the first response reports `total_pages ≤ 1` (echoing page 1), and when
`meta.page`/`meta.total_pages` are absent so both default to -1 and the
loop condition `-1 < -1` is immediately false. -/
theorem C1_paginator_yields_all_pages :
    (∀ (S : Server) (url : String) (op : Option Params) (N n : Nat),
      (∀ q, (S q).status_code = 200) →
      (∀ q p, dictGet q.params "page" = some (.num p) →
        metaPage (S q).body = p) →
      (∀ q, metaTotalPages (S q).body = (N : Int)) →
      1 ≤ N → N ≤ n →
      (get_all S url op n).reqs = pageReqs url (op.getD []) 1 N ∧
      (get_all S url op n).pages =
        (pageReqs url (op.getD []) 1 N).map (fun q => (S q).body) ∧
      (get_all S url op n).pages.length = N ∧
      (get_all S url op n).err = none) ∧
    (∀ (S : Server) (url : String) (op : Option Params) (n : Nat),
      1 ≤ n →
      (S (firstPageReq url op)).status_code = 200 →
      metaPage (S (firstPageReq url op)).body = 1 →
      metaTotalPages (S (firstPageReq url op)).body ≤ 1 →
      (get_all S url op n).pages = [(S (firstPageReq url op)).body] ∧
      (get_all S url op n).err = none) ∧
    (∀ (S : Server) (url : String) (op : Option Params) (n : Nat),
      1 ≤ n →
      (S (firstPageReq url op)).status_code = 200 →
      (S (firstPageReq url op)).body.meta = none →
      metaPage (S (firstPageReq url op)).body = -1 ∧
      metaTotalPages (S (firstPageReq url op)).body = -1 ∧
      (get_all S url op n).pages = [(S (firstPageReq url op)).body] ∧
      (get_all S url op n).err = none) := by
  refine ⟨?_, ?_, ?_⟩
  · intro S url op N n h200 hpage htot hN hn
    have h := get_all_complete S url op N n h200 hpage htot hN hn
    exact ⟨h.1, h.2.1, by rw [h.2.1, List.length_map, pageReqs_length], h.2.2⟩
  · intro S url op n hn h200 hp ht
    have h := get_all_one_page S url op n hn h200
      (le_trans ht (le_of_eq hp.symm))
    exact ⟨h.2.1, h.2.2⟩
  · intro S url op n hn h200 hm
    have hp : metaPage (S (firstPageReq url op)).body = -1 := by
      simp [metaPage, hm]
    have ht : metaTotalPages (S (firstPageReq url op)).body = -1 := by
      simp [metaTotalPages, hm]
    have h := get_all_one_page S url op n hn h200 (by rw [hp, ht])
    exact ⟨hp, ht, h.2.1, h.2.2⟩

/-- C3: any non-200 HTTP response — on a page GET (`_get_page`) or on the
create-contact POST — turns into an `APIError` that carries exactly the
response's numeric status code and its status text, and no ordinary value
is returned (the result is the error, not an `ok`). -/
theorem C3_non_200_raises_APIError :
    (∀ (S : Server) (url : String) (op : Option Params) (page : Int),
      (S ⟨url, dictSet (op.getD []) "page" (.num page)⟩).status_code ≠ 200 →
      (get_page S url op page).2.2 =
        .error ⟨(S ⟨url, dictSet (op.getD [])
                    "page" (.num page)⟩).status_code,
                (S ⟨url, dictSet (op.getD [])
                    "page" (.num page)⟩).reason⟩) ∧
    (∀ (S : Server) (b : String) (kwargs : List (String × JVal)),
      (S ⟨b ++ "/contacts",
          kwargs.filter fun kv =>
            contactFields.contains kv.1⟩).status_code ≠ 200 →
      (create_contact S b kwargs).2 =
        .error ⟨(S ⟨b ++ "/contacts",
                    kwargs.filter fun kv =>
                      contactFields.contains kv.1⟩).status_code,
                (S ⟨b ++ "/contacts",
                    kwargs.filter fun kv =>
                      contactFields.contains kv.1⟩).reason⟩) := by
  constructor
  · intro S url op page h
    rw [get_page_err_eq S url op page h]
  · intro S b kwargs h
    simp only [create_contact]
    rw [if_neg h]

/-- C4: the body `create_contact` sends contains exactly the supplied
pairs whose key is in the fixed allow-list, in their original order with
their values unchanged (the sent body is a sublist of the input), and the
call returns `True` exactly when the server answers 200. -/
theorem C4_create_contact_allow_list (S : Server) (b : String)
    (kwargs : List (String × JVal)) :
    (∀ kv : String × JVal,
      kv ∈ (create_contact S b kwargs).1.params ↔
        kv ∈ kwargs ∧ kv.1 ∈ contactFields) ∧
    (create_contact S b kwargs).1.params.Sublist kwargs ∧
    ((create_contact S b kwargs).2 = .ok true ↔
      (S (create_contact S b kwargs).1).status_code = 200) := by
  have hreq : (create_contact S b kwargs).1 =
      ⟨b ++ "/contacts", kwargs.filter fun kv =>
        contactFields.contains kv.1⟩ := by
    simp only [create_contact]
    split <;> rfl
  refine ⟨?_, ?_, ?_⟩
  · intro kv
    rw [hreq]
    simp [List.mem_filter]
  · rw [hreq]
    exact List.filter_sublist kwargs
  · rw [hreq]
    simp only [create_contact]
    by_cases h : (S ⟨b ++ "/contacts",
        kwargs.filter fun kv => contactFields.contains kv.1⟩).status_code = 200
    · rw [if_pos h]
      simpa using h
    · rw [if_neg h]
      simpa using h

/-- C6 counterexample: in a concrete end-to-end run with
customer_id = "42" against a well-behaved one-page server, NOT every
outbound `/contacts` request carries `customer_id = "42"`: the header
peek's request (the first request of the run) carries
`customer_id = None` instead. -/
theorem C6_counterexample :
    ¬ (∀ q ∈ mainReqs (mockS 1 [wr1]) (argsW (some "42")) 2,
        dictGet q.params "customer_id" = some (JVal.str "42")) := by
  decide

/-- C6 (amended): every outbound request of an `all_contacts` pass that
is given a customer_id carries that customer_id unchanged, with the
paginator injecting only the `page` parameter and passing every other
parameter through unchanged; the header-discovery peek, however, runs
`all_contacts()` without the filter, so its request carries
`customer_id = None`. -/
theorem C6_customer_id_passthrough (S : Server) (b : String) (cid : String)
    (n : Nat) :
    (∀ q ∈ (all_contacts S b (some cid) n).1.reqs,
      q.url = b ++ "/contacts" ∧
      dictGet q.params "customer_id" = some (.str cid) ∧
      (∃ p : Int, dictGet q.params "page" = some (.num p)) ∧
      (∀ k, k ≠ "page" →
        dictGet q.params k = dictGet [("customer_id", JVal.str cid)] k)) ∧
    (∀ q ∈ (all_contacts S b none 1).1.reqs,
      dictGet q.params "customer_id" = some JVal.null) := by
  constructor
  · intro q hq
    simp only [all_contacts] at hq
    obtain ⟨p, rfl⟩ := get_all_reqs_shape S (b ++ "/contacts") n
      (some [("customer_id", jopt (some cid))]) q hq
    refine ⟨rfl, ?_, ⟨p, dictGet_dictSet _ _ _⟩, ?_⟩
    · rw [dictGet_dictSet_ne _ _ _ _ (by decide)]
      simp [dictGet, jopt]
    · intro k hk
      rw [dictGet_dictSet_ne _ _ _ _ hk]
      simp [jopt]
  · intro q hq
    simp only [all_contacts] at hq
    obtain ⟨p, rfl⟩ := get_all_reqs_shape S (b ++ "/contacts") 1
      (some [("customer_id", jopt none)]) q hq
    rw [dictGet_dictSet_ne _ _ _ _ (by decide)]
    simp [dictGet, jopt]

/-- C7: header discovery performs exactly one page fetch (it pulls a
single item from the generator, so only one request is issued), derives
the headers from the first record of the first page only, and does not
advance the sequence used for the export: the export pass of a run is a
second, independently created generator whose first request asks for
page 1 again. -/
theorem C7_header_peek_one_fetch (S : Server) (args : Args) (fuel : Nat)
    (hf : 1 ≤ fuel) :
    (all_contacts S (baseUrl args) none 1).1.reqs.length = 1 ∧
    (∀ (r1 : Rec) (rest : List Rec) (tail : List (List Rec)),
      (all_contacts S (baseUrl args) none 1).2 = (r1 :: rest) :: tail →
      get_headers S (baseUrl args) none = .ok (dictKeys r1)) ∧
    (∀ fns, get_headers S (baseUrl args) none = .ok fns →
      ∃ tl, mainReqs S args fuel =
        (all_contacts S (baseUrl args) none 1).1.reqs ++
          contactsPageOneReq (baseUrl args) args.customer_id :: tl) := by
  refine ⟨?_, ?_, ?_⟩
  · simp only [all_contacts]
    rw [(get_all_one S (baseUrl args ++ "/contacts")
      (some [("customer_id", jopt none)])).1]
    rfl
  · intro r1 rest tail hpg
    by_cases h200 : (S (contactsPageOneReq (baseUrl args) none)).status_code
        = 200
    · have hone := (get_all_one S (baseUrl args ++ "/contacts")
        (some [("customer_id", jopt none)])).2.1 (by exact h200)
      simp only [all_contacts] at hpg
      rw [hone.1] at hpg
      simp only [List.map_cons, List.map_nil] at hpg
      have hc : (S (contactsPageOneReq (baseUrl args)
          none)).body.contacts.getD [] = r1 :: rest := by
        have := (List.cons.injEq .. ▸ hpg).1
        exact this
      exact get_headers_ok S (baseUrl args) none r1 rest h200 hc
    · have hone := (get_all_one S (baseUrl args ++ "/contacts")
        (some [("customer_id", jopt none)])).2.2 (by exact h200)
      simp only [all_contacts] at hpg
      rw [hone.1] at hpg
      simp at hpg
  · intro fns hgh
    obtain ⟨m, rfl⟩ : ∃ m, fuel = m + 1 := ⟨fuel - 1, by omega⟩
    obtain ⟨tl, htl⟩ := get_all_head S (baseUrl args ++ "/contacts")
      (some [("customer_id", jopt args.customer_id)]) m
    refine ⟨tl, ?_⟩
    simp only [mainReqs, all_contacts]
    rw [hgh, htl]
    rfl

/-- C8: when the very first page request of a run fails with a non-200
status, the process exits with code 1 carrying the `APIError`, and the
output file was never opened, so no CSV rows at all (in particular none
beyond a header) were written. -/
theorem C8_first_page_failure (S : Server) (args : Args) (fuel : Nat)
    (h : (S (peekReq args)).status_code ≠ 200) :
    mainRun S args fuel = some ⟨1, none,
      some (.api ⟨(S (peekReq args)).status_code,
                  (S (peekReq args)).reason⟩)⟩ := by
  have hgh := get_headers_err_api S (baseUrl args) none
    (by rw [← peekReq_eq]; exact h)
  rw [← peekReq_eq args] at hgh
  simp only [mainRun]
  rw [hgh]

/-- C9: when the first fetched page answers 200 but carries no contact
records (an empty `contacts` list, or no `contacts` key at all), header
discovery fails with an `IndexError` from `page[0]`; the failure is the
generic kind, not an `APIError`, and the process exits with code 1 before
the output file is opened. -/
theorem C9_empty_first_page (S : Server) (args : Args) (fuel : Nat)
    (h200 : (S (peekReq args)).status_code = 200)
    (hc : (S (peekReq args)).body.contacts = some [] ∨
          (S (peekReq args)).body.contacts = none) :
    mainRun S args fuel = some ⟨1, none, some .indexError⟩ := by
  have hcd : (S (contactsPageOneReq (baseUrl args)
      none)).body.contacts.getD [] = [] := by
    rw [← peekReq_eq args]
    rcases hc with hc | hc <;> simp [hc]
  have hgh := get_headers_index S (baseUrl args) none
    (by rw [← peekReq_eq]; exact h200) hcd
  simp only [mainRun]
  rw [hgh]

/-- C10: when no customer_id is supplied, every outbound request of an
`all_contacts` pass still carries the `customer_id` key, bound to `None`
(the key is never omitted), alongside the injected `page` parameter. -/
theorem C10_customer_id_key_always_present (S : Server) (b : String)
    (n : Nat) :
    ∀ q ∈ (all_contacts S b none n).1.reqs,
      dictGet q.params "customer_id" = some JVal.null ∧
      ∃ p : Int, dictGet q.params "page" = some (.num p) := by
  intro q hq
  simp only [all_contacts] at hq
  obtain ⟨p, rfl⟩ := get_all_reqs_shape S (b ++ "/contacts") n
    (some [("customer_id", jopt none)]) q hq
  refine ⟨?_, p, dictGet_dictSet _ _ _⟩
  rw [dictGet_dictSet_ne _ _ _ _ (by decide)]
  simp [dictGet, jopt]

/-- C5: the export process exits with code 0 exactly when no exception
was raised; any `APIError` and any other exception alike are caught once
at top level and mapped to the same exit code 1, with no distinction
between the two kinds. -/
theorem C5_exit_codes (S : Server) (args : Args) (fuel : Nat)
    (res : MainResult) (h : mainRun S args fuel = some res) :
    (res.err = none → res.exitCode = 0) ∧
    (∀ e, res.err = some e → res.exitCode = 1) := by
  rcases hgh : get_headers S (baseUrl args) none with e | fns
  · simp only [mainRun, hgh] at h
    injection h with h1
    subst h1
    exact ⟨fun hh => by simp at hh, fun e' he' => rfl⟩
  · simp only [mainRun, all_contacts] at h
    rw [hgh] at h
    rcases hwp : writePages fns (((get_all S (baseUrl args ++ "/contacts")
        (some [("customer_id", jopt args.customer_id)]) fuel).pages).map
        (fun d => d.contacts.getD [])) with ⟨rows, _ | we⟩
    · simp only [hwp] at h
      rcases herr : (get_all S (baseUrl args ++ "/contacts")
          (some [("customer_id", jopt args.customer_id)]) fuel).err
          with _ | e
      · simp only [herr] at h
        by_cases hex : (get_all S (baseUrl args ++ "/contacts")
            (some [("customer_id", jopt args.customer_id)]) fuel).exhausted
        · rw [if_pos hex] at h
          injection h with h1
          subst h1
          exact ⟨fun _ => rfl, fun e' he' => by simp at he'⟩
        · rw [if_neg hex] at h
          simp at h
      · simp only [herr] at h
        injection h with h1
        subst h1
        exact ⟨fun hh => by simp at hh, fun e' he' => rfl⟩
    · simp only [hwp] at h
      injection h with h1
      subst h1
      exact ⟨fun hh => by simp at hh, fun e' he' => rfl⟩

/-- C2: in every successful run, the CSV written consists of a header row
equal to the key list of the first fetched contact record (the first
record of the first peeked page, in API order) followed by exactly one
data row per contact, pages in order and records in page order. -/
theorem C2_csv_header_and_rows (S : Server) (args : Args) (fuel : Nat)
    (res : MainResult) (h : mainRun S args fuel = some res)
    (hok : res.err = none) :
    ∃ (r1 : Rec) (rest : List Rec) (tail : List (List Rec)),
      (all_contacts S (baseUrl args) none 1).2 = (r1 :: rest) :: tail ∧
      res.exitCode = 0 ∧
      res.file = some (dictKeys r1 ::
        ((all_contacts S (baseUrl args) args.customer_id fuel).2.join).map
          (csvRow (dictKeys r1))) := by
  rcases hgh : get_headers S (baseUrl args) none with e | fns
  · simp only [mainRun, hgh] at h
    injection h with h1
    subst h1
    simp at hok
  · obtain ⟨r1, rest, tail, hpg, hfns⟩ :=
      get_headers_ok_inv S (baseUrl args) none fns hgh
    subst hfns
    simp only [mainRun, all_contacts, hgh] at h
    rcases hwp : writePages (dictKeys r1)
        (((get_all S (baseUrl args ++ "/contacts")
          (some [("customer_id", jopt args.customer_id)]) fuel).pages).map
          (fun d => d.contacts.getD [])) with ⟨rows, _ | we⟩
    · simp only [hwp] at h
      rcases herr : (get_all S (baseUrl args ++ "/contacts")
          (some [("customer_id", jopt args.customer_id)]) fuel).err
          with _ | e
      · simp only [herr] at h
        by_cases hex : (get_all S (baseUrl args ++ "/contacts")
            (some [("customer_id", jopt args.customer_id)]) fuel).exhausted
        · rw [if_pos hex] at h
          injection h with h1
          subst h1
          refine ⟨r1, rest, tail, hpg, rfl, ?_⟩
          have hrows := writePages_ok (dictKeys r1) _ rows hwp
          simp only [all_contacts]
          rw [hrows]
        · rw [if_neg hex] at h
          simp at h
      · simp only [herr] at h
        injection h with h1
        subst h1
        simp at hok
    · simp only [hwp] at h
      injection h with h1
      subst h1
      simp at hok

lemma mockS_page (M : Nat) (cs : List Rec) :
    ∀ q p, dictGet q.params "page" = some (.num p) →
      metaPage ((mockS M cs) q).body = p := by
  intro q p h
  simp [mockS, metaPage, pageOf, h]

theorem C1_witness :
    ((get_all (mockS 2 [wr1]) "u" none 2).pages.length = 2 ∧
      (get_all (mockS 2 [wr1]) "u" none 2).err = none) ∧
    (get_all (mockS 1 [wr1]) "u" none 3).pages =
      [((mockS 1 [wr1]) (firstPageReq "u" none)).body] ∧
    (get_all (bareS [wr1]) "u" none 3).pages =
      [((bareS [wr1]) (firstPageReq "u" none)).body] := by
  refine ⟨?_, ?_, ?_⟩
  · have h := C1_paginator_yields_all_pages.1 (mockS 2 [wr1]) "u" none 2 2
      (fun _ => rfl) (mockS_page 2 [wr1]) (fun _ => rfl)
      (by norm_num) (by norm_num)
    exact ⟨h.2.2.1, h.2.2.2⟩
  · exact (C1_paginator_yields_all_pages.2.1 (mockS 1 [wr1]) "u" none 3
      (by norm_num) rfl (by decide) (by decide)).1
  · exact (C1_paginator_yields_all_pages.2.2 (bareS [wr1]) "u" none 3
      (by norm_num) rfl rfl).2.2.1

theorem C2_witness :
    ∃ (r1 : Rec) (rest : List Rec) (tail : List (List Rec)),
      (all_contacts (mockS 2 [wr1, wr2]) (baseUrl (argsW (some "42")))
          none 1).2 = (r1 :: rest) :: tail ∧
      (⟨0, some [["id", "name", "email"], ["1", "a", "a@x"],
          ["2", "b", "b@x"], ["1", "a", "a@x"], ["2", "b", "b@x"]],
        none⟩ : MainResult).exitCode = 0 ∧
      (⟨0, some [["id", "name", "email"], ["1", "a", "a@x"],
          ["2", "b", "b@x"], ["1", "a", "a@x"], ["2", "b", "b@x"]],
        none⟩ : MainResult).file = some (dictKeys r1 ::
        ((all_contacts (mockS 2 [wr1, wr2]) (baseUrl (argsW (some "42")))
          (argsW (some "42")).customer_id 3).2.join).map
            (csvRow (dictKeys r1))) :=
  C2_csv_header_and_rows (mockS 2 [wr1, wr2]) (argsW (some "42")) 3
    ⟨0, some [["id", "name", "email"], ["1", "a", "a@x"],
      ["2", "b", "b@x"], ["1", "a", "a@x"], ["2", "b", "b@x"]], none⟩
    (by decide) rfl

theorem C3_witness :
    (get_page (errS 404 "Not Found") "u" none 1).2.2 =
      .error ⟨404, "Not Found"⟩ ∧
    (create_contact (errS 404 "Not Found") "b"
      [("name", .str "x"), ("evil", .str "y")]).2 =
      .error ⟨404, "Not Found"⟩ := by
  constructor
  · exact C3_non_200_raises_APIError.1 (errS 404 "Not Found") "u" none 1
      (by decide)
  · exact C3_non_200_raises_APIError.2 (errS 404 "Not Found") "b"
      [("name", .str "x"), ("evil", .str "y")] (by decide)

theorem C5_witness :
    ((⟨0, some [["id", "name", "email"], ["1", "a", "a@x"]],
        none⟩ : MainResult).err = none →
      (⟨0, some [["id", "name", "email"], ["1", "a", "a@x"]],
        none⟩ : MainResult).exitCode = 0) ∧
    (∀ e, (⟨0, some [["id", "name", "email"], ["1", "a", "a@x"]],
        none⟩ : MainResult).err = some e →
      (⟨0, some [["id", "name", "email"], ["1", "a", "a@x"]],
        none⟩ : MainResult).exitCode = 1) :=
  C5_exit_codes (mockS 1 [wr1]) (argsW none) 2
    ⟨0, some [["id", "name", "email"], ["1", "a", "a@x"]], none⟩
    (by decide)

theorem C6_witness :
    dictGet (⟨"B/contacts", [("customer_id", JVal.str "42"),
      ("page", JVal.num 1)]⟩ : Req).params "customer_id" =
        some (JVal.str "42") ∧
    dictGet (⟨"B/contacts", [("customer_id", JVal.null),
      ("page", JVal.num 1)]⟩ : Req).params "customer_id" =
        some JVal.null := by
  constructor
  · exact ((C6_customer_id_passthrough (mockS 1 [wr1]) "B" "42" 1).1
      ⟨"B/contacts", [("customer_id", JVal.str "42"), ("page", JVal.num 1)]⟩
      (by decide)).2.1
  · exact (C6_customer_id_passthrough (mockS 1 [wr1]) "B" "42" 1).2
      ⟨"B/contacts", [("customer_id", JVal.null), ("page", JVal.num 1)]⟩
      (by decide)

theorem C7_witness :
    (all_contacts (mockS 1 [wr1]) (baseUrl (argsW (some "42")))
      none 1).1.reqs.length = 1 ∧
    get_headers (mockS 1 [wr1]) (baseUrl (argsW (some "42"))) none =
      .ok (dictKeys wr1) ∧
    (∃ tl, mainReqs (mockS 1 [wr1]) (argsW (some "42")) 1 =
      (all_contacts (mockS 1 [wr1]) (baseUrl (argsW (some "42")))
        none 1).1.reqs ++
        contactsPageOneReq (baseUrl (argsW (some "42")))
          (argsW (some "42")).customer_id :: tl) := by
  have h := C7_header_peek_one_fetch (mockS 1 [wr1]) (argsW (some "42")) 1
    (by norm_num)
  exact ⟨h.1, h.2.1 wr1 [] [] (by decide),
    h.2.2 (dictKeys wr1) (h.2.1 wr1 [] [] (by decide))⟩

theorem C8_witness :
    mainRun (errS 500 "Internal Server Error") (argsW none) 3 =
      some ⟨1, none, some (.api ⟨500, "Internal Server Error"⟩)⟩ :=
  C8_first_page_failure (errS 500 "Internal Server Error") (argsW none) 3
    (by decide)

theorem C9_witness :
    mainRun emptyS (argsW none) 3 = some ⟨1, none, some .indexError⟩ :=
  C9_empty_first_page emptyS (argsW none) 3 rfl (Or.inl rfl)

theorem C10_witness :
    dictGet (⟨"B/contacts", [("customer_id", JVal.null),
      ("page", JVal.num 1)]⟩ : Req).params "customer_id" =
        some JVal.null ∧
    ∃ p : Int, dictGet (⟨"B/contacts", [("customer_id", JVal.null),
      ("page", JVal.num 1)]⟩ : Req).params "page" = some (.num p) :=
  C10_customer_id_key_always_present (mockS 1 [wr1]) "B" 1
    ⟨"B/contacts", [("customer_id", JVal.null), ("page", JVal.num 1)]⟩
    (by decide)
